import Mathlib

/-!
Shallow embedding of the sysclk-lwla driver front-end
(src/hardware/sysclk-lwla/api.c of libsigrok) and proofs about it.

The embedding models the functions `config_set`, `configure_probes`,
`dev_acquisition_start`, `dev_acquisition_stop` and `dev_close` from
api.c.  External collaborators (the protocol engine `lwla_*` functions,
the USB transport, memory allocation) are modelled by oracle parameters
carrying their result codes, exactly where api.c consumes those results.
-/

namespace SysclkLwla

/-- Modelled from the spec: result codes of the host library
(libsigrok.h is not part of this repository's sources; api.c only
returns these named codes).  The values are the standard libsigrok
enumeration; the proofs rely only on the codes being distinct. -/
def SR_OK : Int := 0

/-- Modelled from the spec: generic error code. -/
def SR_ERR : Int := -1

/-- Modelled from the spec: memory allocation failure code. -/
def SR_ERR_MALLOC : Int := -2

/-- Modelled from the spec: invalid argument code. -/
def SR_ERR_ARG : Int := -3

/-- Modelled from the spec: incorrect samplerate code. -/
def SR_ERR_SAMPLERATE : Int := -5

/-- Modelled from the spec: functionality not applicable code. -/
def SR_ERR_NA : Int := -6

/-- Modelled from the spec: device closed / not active code. -/
def SR_ERR_DEV_CLOSED : Int := -7

/-- Device status values (libsigrok.h), the state machine of the spec:
INACTIVE -> INITIALIZING -> ACTIVE -> STOPPING. -/
inductive sr_st where
  | INACTIVE
  | INITIALIZING
  | ACTIVE
  | STOPPING
deriving DecidableEq, Repr

/-- Clock source selection values (protocol.h of this driver; only the
constants api.c mentions are modelled). -/
inductive clock_source where
  | NONE
  | INT
  | EXT_RISE
  | EXT_FALL
deriving DecidableEq, Repr

/-- One probe (channel) of the device: the `enabled` flag and the
trigger specification string of `struct sr_probe`.  The C string
`probe->trigger` is `NULL` (`none`), empty (`some []`) or a list of
characters. -/
structure sr_probe where
  enabled : Bool
  trigger : Option (List Char)
deriving DecidableEq, Repr

/-- The fields of `struct dev_context` (protocol.h) that api.c reads or
writes.  Acquisition-state handles are opaque; they are modelled by a
Nat identity. -/
structure dev_context where
  samplerate : Nat
  limit_samples : Nat
  selected_clock_source : clock_source
  channel_mask : Nat
  trigger_mask : Nat
  trigger_edge_mask : Nat
  trigger_values : Nat
  acquisition : Option Nat
  stopping_in_progress : Bool
  transfer_error : Bool
deriving DecidableEq, Repr

/-- The four bit-mask fields of the device context.  They are the only
`dev_context` fields that the loop of `configure_probes` reads or
writes, so the loop is threaded over this view and `configure_probes`
writes the final values back. -/
structure trig_state where
  channel_mask : Nat
  trigger_mask : Nat
  trigger_edge_mask : Nat
  trigger_values : Nat
deriving DecidableEq, Repr

/-- SR_HZ(n) of libsigrok.h. -/
def SR_HZ (n : Nat) : Nat := n

/-- SR_KHZ(n) of libsigrok.h. -/
def SR_KHZ (n : Nat) : Nat := n * 1000

/-- SR_MHZ(n) of libsigrok.h. -/
def SR_MHZ (n : Nat) : Nat := n * 1000000

/-- The fixed, descending samplerate list of api.c (`samplerates[]`). -/
def samplerates : List Nat :=
  [SR_MHZ 125, SR_MHZ 100,
   SR_MHZ 50,  SR_MHZ 20,  SR_MHZ 10,
   SR_MHZ 5,   SR_MHZ 2,   SR_MHZ 1,
   SR_KHZ 500, SR_KHZ 200, SR_KHZ 100,
   SR_KHZ 50,  SR_KHZ 20,  SR_KHZ 10,
   SR_KHZ 5,   SR_KHZ 2,   SR_KHZ 1,
   SR_HZ 500,  SR_HZ 200,  SR_HZ 100]

/-- A `config_set` request: the switch key of api.c together with the
value extracted from the GVariant argument (`g_variant_get_uint64` /
`g_variant_get_boolean`). `other` covers the `default:` branch. -/
inductive conf_req where
  | samplerate (rate : Nat)
  | limit_samples (limit : Nat)
  | external_clock (b : Bool)
  | other
deriving DecidableEq, Repr

/-- `config_set` of api.c.  `devc` is `sdi->priv` (the guard
`if (!devc) return SR_ERR_DEV_CLOSED;`); `status` is `sdi->status`;
`clock_ret` is the oracle result of the external
`lwla_set_clock_source` call made when the external clock is switched
on an ACTIVE device.  In the samplerate branch, `samplerates.headD 0`
is `samplerates[0]` and `samplerates.getLastD 0` is
`samplerates[G_N_ELEMENTS(samplerates) - 1]`. -/
def config_set (req : conf_req) (status : sr_st) (devc : Option dev_context)
    (clock_ret : Int) : Int × Option dev_context :=
  match devc with
  | none => (SR_ERR_DEV_CLOSED, none)
  | some devc =>
    match req with
    | .samplerate rate =>
      if rate > samplerates.headD 0 ∨ rate < samplerates.getLastD 0 then
        (SR_ERR_SAMPLERATE, some devc)
      else
        (SR_OK, some { devc with samplerate := rate })
    | .limit_samples n => (SR_OK, some { devc with limit_samples := n })
    | .external_clock b =>
      let devc := { devc with selected_clock_source :=
                      if b then clock_source.EXT_RISE else clock_source.INT }
      if status = sr_st.ACTIVE then (clock_ret, some devc)
      else (SR_OK, some devc)
    | .other => (SR_ERR_NA, some devc)

/-- The probe loop of `configure_probes` (api.c lines 352-390).
`np` is the NUM_PROBES constant of protocol.h, `probe_bit` the running
bit (`probe_bit <<= 1` each iteration), and the list entries are the
`node->data` pointers (possibly NULL).  All quantities stay below
2^64 whenever `np ≤ 63` (the hardware has 34 channels), so Nat
arithmetic agrees with the C uint64_t arithmetic there.
The C `switch` falls through: case '1' also runs case '0' (break), and
case 'r' also runs case 'f' (sets the edge bit). -/
def configure_probes_loop (np : Nat) :
    trig_state → List (Option sr_probe) → Nat → Int × trig_state
  | st, [], _ => (SR_OK, st)
  | st, node :: rest, probe_bit =>
    if probe_bit ≥ 1 <<< np then (SR_ERR, st)
    else
      match node with
      | none => configure_probes_loop np st rest (probe_bit <<< 1)
      | some probe =>
        if probe.enabled = false then
          configure_probes_loop np st rest (probe_bit <<< 1)
        else
          let st1 : trig_state :=
            { st with channel_mask := st.channel_mask ||| probe_bit }
          match probe.trigger with
          | none => configure_probes_loop np st1 rest (probe_bit <<< 1)
          | some [] => configure_probes_loop np st1 rest (probe_bit <<< 1)
          | some (c :: cs) =>
            if cs ≠ [] then (SR_ERR, st1)
            else
              let st2 : trig_state :=
                { st1 with trigger_mask := st1.trigger_mask ||| probe_bit }
              if c = '1' then
                configure_probes_loop np
                  { st2 with trigger_values := st2.trigger_values ||| probe_bit }
                  rest (probe_bit <<< 1)
              else if c = '0' then
                configure_probes_loop np st2 rest (probe_bit <<< 1)
              else if c = 'r' then
                configure_probes_loop np
                  { st2 with trigger_values := st2.trigger_values ||| probe_bit,
                             trigger_edge_mask := st2.trigger_edge_mask ||| probe_bit }
                  rest (probe_bit <<< 1)
              else if c = 'f' then
                configure_probes_loop np
                  { st2 with trigger_edge_mask := st2.trigger_edge_mask ||| probe_bit }
                  rest (probe_bit <<< 1)
              else (SR_ERR, st2)

/-- `configure_probes` of api.c: zeroes the four mask fields of the
device context, then runs the probe loop starting at `probe_bit = 1`,
and the final (possibly partial) mask values are the ones left in the
context — also on the error paths, since the C code mutates the live
context in place. -/
def configure_probes (np : Nat) (devc : dev_context)
    (probes : List (Option sr_probe)) : Int × dev_context :=
  let r := configure_probes_loop np ⟨0, 0, 0, 0⟩ probes 1
  (r.1, { devc with channel_mask := r.2.channel_mask,
                    trigger_mask := r.2.trigger_mask,
                    trigger_edge_mask := r.2.trigger_edge_mask,
                    trigger_values := r.2.trigger_values })

/-- Result of `dev_acquisition_start`, together with the externally
visible effects of the call: whether `lwla_alloc_acquisition_state`
was invoked, whether `lwla_free_acquisition_state` was invoked on the
new session, and whether the USB source was registered and the session
header sent. -/
structure start_result where
  ret : Int
  status : sr_st
  devc : dev_context
  alloc_called : Bool
  session_freed : Bool
  source_added : Bool
  header_sent : Bool
deriving DecidableEq, Repr

/-- `dev_acquisition_start` of api.c.  `status` is `sdi->status` (never
written by this function), `devc` is `sdi->priv`, `probes` is
`sdi->probes`.  Oracles: `alloc` is the result of
`lwla_alloc_acquisition_state` (`none` = allocation failure),
`setup_ret` of `lwla_setup_acquisition`, `start_ret` of
`lwla_start_acquisition`. -/
def dev_acquisition_start (np : Nat) (status : sr_st) (devc : dev_context)
    (probes : List (Option sr_probe)) (alloc : Option Nat)
    (setup_ret start_ret : Int) : start_result :=
  if status ≠ sr_st.ACTIVE then
    ⟨SR_ERR_DEV_CLOSED, status, devc, false, false, false, false⟩
  else if devc.acquisition.isSome then
    ⟨SR_ERR, status, devc, false, false, false, false⟩
  else
    match alloc with
    | none => ⟨SR_ERR_MALLOC, status, devc, true, false, false, false⟩
    | some acq =>
      let devc1 := { devc with stopping_in_progress := false,
                               transfer_error := false }
      let r := configure_probes np devc1 probes
      if r.1 ≠ SR_OK then
        ⟨r.1, status, r.2, true, true, false, false⟩
      else
        let devc3 := { r.2 with acquisition := some acq }
        if setup_ret ≠ SR_OK then
          ⟨setup_ret, status, { devc3 with acquisition := none },
           true, true, false, false⟩
        else if start_ret ≠ SR_OK then
          ⟨start_ret, status, { devc3 with acquisition := none },
           true, true, false, false⟩
        else
          ⟨SR_OK, status, devc3, true, false, true, true⟩

/-- The device-instance fields of `struct sr_dev_inst` that
`dev_acquisition_stop` and `dev_close` touch: the status, the private
context, and the USB device handle (`usb->devhdl`, `none` = NULL). -/
structure sr_dev_inst where
  status : sr_st
  devc : dev_context
  devhdl : Option Nat
deriving DecidableEq, Repr

/-- `dev_acquisition_stop` of api.c: fails with SR_ERR_DEV_CLOSED
unless the status is ACTIVE, otherwise sets the status to STOPPING and
returns SR_OK; no other field is touched. -/
def dev_acquisition_stop (sdi : sr_dev_inst) : Int × sr_dev_inst :=
  if sdi.status ≠ sr_st.ACTIVE then (SR_ERR_DEV_CLOSED, sdi)
  else (SR_OK, { sdi with status := sr_st.STOPPING })

/-- `dev_close` of api.c.  `di_initialized` models the
`if (!di->priv)` driver-initialization guard; `clock_ret` is the
oracle result of the external `lwla_set_clock_source` shutdown call,
which api.c only logs (`sr_err`) and never propagates.  With no open
handle the function is a no-op returning SR_OK; otherwise it sets the
clock-source sentinel to NONE, releases the USB interface and handle,
and sets the status to INACTIVE. -/
def dev_close (di_initialized : Bool) (sdi : sr_dev_inst)
    (_clock_ret : Int) : Int × sr_dev_inst :=
  if di_initialized = false then (SR_ERR, sdi)
  else
    match sdi.devhdl with
    | none => (SR_OK, sdi)
    | some _ =>
      let devc := { sdi.devc with selected_clock_source := clock_source.NONE }
      (SR_OK, { sdi with devc := devc, devhdl := none,
                         status := sr_st.INACTIVE })

/-- The spec's `validateSampleRate` acceptance condition, written from
the spec's words for the refinement comparison with `config_set`:
`min(supportedSet) <= requested <= max(supportedSet)`. -/
def validateSampleRate_spec (rate : Nat) : Prop :=
  samplerates.min?.getD 0 ≤ rate ∧ rate ≤ samplerates.max?.getD 0

instance (rate : Nat) : Decidable (validateSampleRate_spec rate) := by
  unfold validateSampleRate_spec; infer_instance

/-- A concrete device context used by the witness theorems. -/
def dc0 : dev_context :=
  ⟨0, 0, clock_source.INT, 0, 0, 0, 0, none, false, false⟩

/-- A probe entry carries a well-formed trigger: no trigger, an empty
trigger string, or exactly one of the four supported symbols. -/
def trigger_ok (p : Option sr_probe) : Bool :=
  match p with
  | none => true
  | some pr =>
    match pr.trigger with
    | none => true
    | some [] => true
    | some [c] => c = '0' || c = '1' || c = 'r' || c = 'f'
    | some (_ :: _ :: _) => false

/-- A probe entry that is absent or disabled with no trigger string. -/
def disabled_no_trigger (p : Option sr_probe) : Bool :=
  match p with
  | none => true
  | some pr => !pr.enabled && pr.trigger.isNone

/-- The bitwise subset chain of the spec on the four masks:
triggerEdgeMask is a subset of triggerMask is a subset of
channelMask. -/
def mask_chain (st : trig_state) : Prop :=
  st.trigger_edge_mask &&& st.trigger_mask = st.trigger_edge_mask
    ∧ st.trigger_mask &&& st.channel_mask = st.trigger_mask

/-- A probe list with `i` absent entries followed by one enabled probe
carrying trigger string `s`: the probe sits at bit position `i`. -/
def single_probe_at (i : Nat) (s : List Char) : List (Option sr_probe) :=
  List.replicate i none ++ [some ⟨true, some s⟩]

/- ------------------------------------------------------------------ -/
/- Theorems                                                           -/
/- ------------------------------------------------------------------ -/

/-- Bitwise absorption: a subset stays a subset when the superset
grows. -/
theorem and_or_absorb (a c b : Nat) (h : a &&& c = a) : a &&& (c ||| b) = a := by
  apply Nat.eq_of_testBit_eq
  intro i
  have h2 := congrArg (fun x => x.testBit i) h
  simp only [Nat.testBit_and, Nat.testBit_or] at h2 ⊢
  revert h2
  cases a.testBit i <;> cases c.testBit i <;> cases b.testBit i <;> simp

/-- Bitwise absorption: adding the same bits to a subset and its
superset preserves the subset relation. -/
theorem or_and_or_absorb (a c b : Nat) (h : a &&& c = a) :
    (a ||| b) &&& (c ||| b) = a ||| b := by
  apply Nat.eq_of_testBit_eq
  intro i
  have h2 := congrArg (fun x => x.testBit i) h
  simp only [Nat.testBit_and, Nat.testBit_or] at h2 ⊢
  revert h2
  cases a.testBit i <;> cases c.testBit i <;> cases b.testBit i <;> simp

/-- The first component of `configure_probes` is the loop result. -/
theorem configure_probes_fst (np : Nat) (d : dev_context)
    (probes : List (Option sr_probe)) :
    (configure_probes np d probes).1
      = (configure_probes_loop np ⟨0, 0, 0, 0⟩ probes 1).1 := rfl

/-- The context after `configure_probes` carries exactly the loop's
final mask values; all other fields are untouched. -/
theorem configure_probes_snd (np : Nat) (d : dev_context)
    (probes : List (Option sr_probe)) :
    (configure_probes np d probes).2
      = { d with
          channel_mask :=
            (configure_probes_loop np ⟨0, 0, 0, 0⟩ probes 1).2.channel_mask,
          trigger_mask :=
            (configure_probes_loop np ⟨0, 0, 0, 0⟩ probes 1).2.trigger_mask,
          trigger_edge_mask :=
            (configure_probes_loop np ⟨0, 0, 0, 0⟩ probes 1).2.trigger_edge_mask,
          trigger_values :=
            (configure_probes_loop np ⟨0, 0, 0, 0⟩ probes 1).2.trigger_values } := rfl

/-- The probe loop, started at bit `k` with at most `np - k` probes
left, all of whose triggers are well-formed, returns SR_OK and
preserves the mask subset chain. -/
theorem configure_probes_loop_ok (np : Nat) (probes : List (Option sr_probe)) :
    ∀ (k : Nat) (st : trig_state),
      k + probes.length ≤ np →
      (∀ p ∈ probes, trigger_ok p = true) →
      mask_chain st →
      (configure_probes_loop np st probes (2 ^ k)).1 = SR_OK
        ∧ mask_chain (configure_probes_loop np st probes (2 ^ k)).2 := by
  induction probes with
  | nil =>
    intro k st _ _ hch
    exact ⟨rfl, hch⟩
  | cons node rest ih =>
    intro k st hlen hok hch
    simp only [List.length_cons] at hlen
    have hklt : k < np := by omega
    have hnotge : ¬ 2 ^ k ≥ 1 <<< np := by
      rw [Nat.one_shiftLeft]
      exact not_le.mpr (Nat.pow_lt_pow_right one_lt_two hklt)
    have hshift : (2 ^ k) <<< 1 = 2 ^ (k + 1) := by
      rw [Nat.shiftLeft_eq, pow_one, ← pow_succ]
    have hlen1 : (k + 1) + rest.length ≤ np := by omega
    have hok1 : ∀ p ∈ rest, trigger_ok p = true :=
      fun p hp => hok p (List.mem_cons_of_mem _ hp)
    have hoknode : trigger_ok node = true := hok node (List.mem_cons_self _ _)
    obtain ⟨cm, tm, tem, tv⟩ := st
    obtain ⟨h1, h2⟩ := hch
    simp only [mask_chain] at h1 h2
    cases node with
    | none =>
      simp only [configure_probes_loop, if_neg hnotge, hshift]
      exact ih (k + 1) _ hlen1 hok1 ⟨h1, h2⟩
    | some probe =>
      obtain ⟨en, trg⟩ := probe
      cases en with
      | false =>
        simp only [configure_probes_loop, if_neg hnotge, hshift]
        exact ih (k + 1) _ hlen1 hok1 ⟨h1, h2⟩
      | true =>
        cases trg with
        | none =>
          simp only [configure_probes_loop, if_neg hnotge, hshift]
          exact ih (k + 1) _ hlen1 hok1 ⟨h1, and_or_absorb _ _ _ h2⟩
        | some s =>
          cases s with
          | nil =>
            simp only [configure_probes_loop, if_neg hnotge, hshift]
            exact ih (k + 1) _ hlen1 hok1 ⟨h1, and_or_absorb _ _ _ h2⟩
          | cons c cs =>
            cases cs with
            | cons c2 cs2 =>
              simp only [trigger_ok] at hoknode
              exact absurd hoknode (by decide)
            | nil =>
              simp only [trigger_ok, Bool.or_eq_true, decide_eq_true_eq]
                at hoknode
              simp only [configure_probes_loop, if_neg hnotge, hshift]
              rcases hoknode with ((rfl | rfl) | rfl) | rfl <;> simp <;>
                apply ih (k + 1) _ hlen1 hok1
              · exact ⟨and_or_absorb _ _ _ h1, or_and_or_absorb _ _ _ h2⟩
              · exact ⟨and_or_absorb _ _ _ h1, or_and_or_absorb _ _ _ h2⟩
              · exact ⟨or_and_or_absorb _ _ _ h1, or_and_or_absorb _ _ _ h2⟩
              · exact ⟨or_and_or_absorb _ _ _ h1, or_and_or_absorb _ _ _ h2⟩

/-- C4: on any probe list of at most the maximum channel count whose
trigger strings are all well-formed, `configure_probes` succeeds, the
resulting masks satisfy the bitwise subset chain
triggerEdgeMask ⊆ triggerMask ⊆ channelMask, and the result —
both the return code and all four masks — is the same for any prior
device context: compilation is a deterministic pure function of the
probe list. -/
theorem c4_mask_invariants (np : Nat) (d d2 : dev_context)
    (probes : List (Option sr_probe))
    (hlen : probes.length ≤ np)
    (hok : ∀ p ∈ probes, trigger_ok p = true) :
    (configure_probes np d probes).1 = SR_OK
    ∧ (configure_probes np d probes).2.trigger_edge_mask
        &&& (configure_probes np d probes).2.trigger_mask
        = (configure_probes np d probes).2.trigger_edge_mask
    ∧ (configure_probes np d probes).2.trigger_mask
        &&& (configure_probes np d probes).2.channel_mask
        = (configure_probes np d probes).2.trigger_mask
    ∧ (configure_probes np d2 probes).1 = (configure_probes np d probes).1
    ∧ (configure_probes np d2 probes).2.channel_mask
        = (configure_probes np d probes).2.channel_mask
    ∧ (configure_probes np d2 probes).2.trigger_mask
        = (configure_probes np d probes).2.trigger_mask
    ∧ (configure_probes np d2 probes).2.trigger_edge_mask
        = (configure_probes np d probes).2.trigger_edge_mask
    ∧ (configure_probes np d2 probes).2.trigger_values
        = (configure_probes np d probes).2.trigger_values := by
  have h0 := configure_probes_loop_ok np probes 0 ⟨0, 0, 0, 0⟩
    (by omega) hok ⟨rfl, rfl⟩
  rw [pow_zero] at h0
  obtain ⟨hret, hch1, hch2⟩ := h0
  refine ⟨?_, ?_, ?_, rfl, rfl, rfl, rfl, rfl⟩
  · rw [configure_probes_fst]
    exact hret
  · rw [configure_probes_snd]
    exact hch1
  · rw [configure_probes_snd]
    exact hch2

/-- C4 witness: a two-probe list with a rising-edge trigger on channel
1, compiled against two different prior contexts. -/
theorem c4_mask_invariants_witness :
    (configure_probes 3 dc0
        [some ⟨true, some ['r']⟩, some ⟨true, none⟩]).1 = SR_OK
    ∧ (configure_probes 3 dc0
          [some ⟨true, some ['r']⟩, some ⟨true, none⟩]).2.trigger_edge_mask
        &&& (configure_probes 3 dc0
          [some ⟨true, some ['r']⟩, some ⟨true, none⟩]).2.trigger_mask
        = (configure_probes 3 dc0
          [some ⟨true, some ['r']⟩, some ⟨true, none⟩]).2.trigger_edge_mask
    ∧ (configure_probes 3 dc0
          [some ⟨true, some ['r']⟩, some ⟨true, none⟩]).2.trigger_mask
        &&& (configure_probes 3 dc0
          [some ⟨true, some ['r']⟩, some ⟨true, none⟩]).2.channel_mask
        = (configure_probes 3 dc0
          [some ⟨true, some ['r']⟩, some ⟨true, none⟩]).2.trigger_mask
    ∧ (configure_probes 3 { dc0 with channel_mask := 7 }
          [some ⟨true, some ['r']⟩, some ⟨true, none⟩]).1
        = (configure_probes 3 dc0
          [some ⟨true, some ['r']⟩, some ⟨true, none⟩]).1
    ∧ (configure_probes 3 { dc0 with channel_mask := 7 }
          [some ⟨true, some ['r']⟩, some ⟨true, none⟩]).2.channel_mask
        = (configure_probes 3 dc0
          [some ⟨true, some ['r']⟩, some ⟨true, none⟩]).2.channel_mask
    ∧ (configure_probes 3 { dc0 with channel_mask := 7 }
          [some ⟨true, some ['r']⟩, some ⟨true, none⟩]).2.trigger_mask
        = (configure_probes 3 dc0
          [some ⟨true, some ['r']⟩, some ⟨true, none⟩]).2.trigger_mask
    ∧ (configure_probes 3 { dc0 with channel_mask := 7 }
          [some ⟨true, some ['r']⟩, some ⟨true, none⟩]).2.trigger_edge_mask
        = (configure_probes 3 dc0
          [some ⟨true, some ['r']⟩, some ⟨true, none⟩]).2.trigger_edge_mask
    ∧ (configure_probes 3 { dc0 with channel_mask := 7 }
          [some ⟨true, some ['r']⟩, some ⟨true, none⟩]).2.trigger_values
        = (configure_probes 3 dc0
          [some ⟨true, some ['r']⟩, some ⟨true, none⟩]).2.trigger_values :=
  c4_mask_invariants 3 dc0 { dc0 with channel_mask := 7 }
    [some ⟨true, some ['r']⟩, some ⟨true, none⟩] (by decide) (by decide)

/-- When more probes remain than channel positions up to `np`, the
probe loop started at bit `k` fails with SR_ERR, and the masks it
leaves behind are exactly those produced by processing only the prefix
that fits (the entries at and past the limit are never applied). -/
theorem configure_probes_loop_trunc (np : Nat) (probes : List (Option sr_probe)) :
    ∀ (k : Nat) (st : trig_state),
      k ≤ np → np < k + probes.length →
      (configure_probes_loop np st probes (2 ^ k)).1 = SR_ERR
      ∧ (configure_probes_loop np st probes (2 ^ k)).2
          = (configure_probes_loop np st (probes.take (np - k)) (2 ^ k)).2 := by
  induction probes with
  | nil =>
    intro k st hk hlt
    simp only [List.length_nil] at hlt
    omega
  | cons node rest ih =>
    intro k st hk hlt
    simp only [List.length_cons] at hlt
    rcases eq_or_lt_of_le hk with rfl | hklt
    · have hge : 2 ^ k ≥ 1 <<< k := by
        rw [Nat.one_shiftLeft]
      simp only [configure_probes_loop, if_pos hge, Nat.sub_self,
                 List.take_zero]
      exact ⟨trivial, trivial⟩
    · have hnotge : ¬ 2 ^ k ≥ 1 <<< np := by
        rw [Nat.one_shiftLeft]
        exact not_le.mpr (Nat.pow_lt_pow_right one_lt_two hklt)
      have hshift : (2 ^ k) <<< 1 = 2 ^ (k + 1) := by
        rw [Nat.shiftLeft_eq, pow_one, ← pow_succ]
      have hk1 : k + 1 ≤ np := hklt
      have hlt1 : np < (k + 1) + rest.length := by omega
      have hsub : np - k = (np - (k + 1)) + 1 := by omega
      rw [hsub, List.take_succ_cons]
      cases node with
      | none =>
        simp only [configure_probes_loop, if_neg hnotge, hshift]
        exact ih (k + 1) st hk1 hlt1
      | some probe =>
        obtain ⟨en, trg⟩ := probe
        cases en with
        | false =>
          simp only [configure_probes_loop, if_neg hnotge, hshift]
          exact ih (k + 1) st hk1 hlt1
        | true =>
          cases trg with
          | none =>
            simp only [configure_probes_loop, if_neg hnotge, hshift]
            exact ih (k + 1) _ hk1 hlt1
          | some s =>
            cases s with
            | nil =>
              simp only [configure_probes_loop, if_neg hnotge, hshift]
              exact ih (k + 1) _ hk1 hlt1
            | cons c cs =>
              cases cs with
              | cons c2 cs2 =>
                simp only [configure_probes_loop, if_neg hnotge,
                           if_pos (List.cons_ne_nil c2 cs2)]
                exact ⟨rfl, rfl⟩
              | nil =>
                simp only [configure_probes_loop, if_neg hnotge, hshift,
                           ne_eq, not_true_eq_false, if_false,
                           if_neg (not_not_intro rfl)]
                by_cases hc1 : c = '1'
                · simp only [if_pos hc1]
                  exact ih (k + 1) _ hk1 hlt1
                · simp only [if_neg hc1]
                  by_cases hc0 : c = '0'
                  · simp only [if_pos hc0]
                    exact ih (k + 1) _ hk1 hlt1
                  · simp only [if_neg hc0]
                    by_cases hcr : c = 'r'
                    · simp only [if_pos hcr]
                      exact ih (k + 1) _ hk1 hlt1
                    · simp only [if_neg hcr]
                      by_cases hcf : c = 'f'
                      · simp only [if_pos hcf]
                        exact ih (k + 1) _ hk1 hlt1
                      · simp only [if_neg hcf]
                        exact ⟨rfl, rfl⟩

/-- The probe loop skips absent entries, doubling the probe bit once
per skipped entry. -/
theorem configure_probes_loop_skip (np : Nat) :
    ∀ (i k : Nat) (st : trig_state) (rest : List (Option sr_probe)),
      k + i ≤ np →
      configure_probes_loop np st (List.replicate i none ++ rest) (2 ^ k)
        = configure_probes_loop np st rest (2 ^ (k + i)) := by
  intro i
  induction i with
  | zero =>
    intro k st rest _
    simp [List.replicate]
  | succ n ih =>
    intro k st rest hle
    have hklt : k < np := by omega
    have hnotge : ¬ 2 ^ k ≥ 1 <<< np := by
      rw [Nat.one_shiftLeft]
      exact not_le.mpr (Nat.pow_lt_pow_right one_lt_two hklt)
    have hshift : (2 ^ k) <<< 1 = 2 ^ (k + 1) := by
      rw [Nat.shiftLeft_eq, pow_one, ← pow_succ]
    rw [List.replicate_succ, List.cons_append]
    simp only [configure_probes_loop, if_neg hnotge, hshift]
    rw [ih (k + 1) st rest (by omega)]
    have harith : k + 1 + n = k + (n + 1) := by omega
    rw [harith]

/-- One enabled probe carrying the single trigger symbol `c`,
processed at probe bit `b` below the channel limit: the loop sets the
channel and the trigger bit and dispatches on the symbol, with the
edge bit set for r and f, the value bit for 1 and r, and an error for
any other symbol. -/
theorem configure_probes_loop_single (np b : Nat) (c : Char)
    (hb : b < 1 <<< np) :
    configure_probes_loop np ⟨0, 0, 0, 0⟩ [some ⟨true, some [c]⟩] b
      = if c = '1' then (SR_OK, ⟨b, b, 0, b⟩)
        else if c = '0' then (SR_OK, ⟨b, b, 0, 0⟩)
        else if c = 'r' then (SR_OK, ⟨b, b, b, b⟩)
        else if c = 'f' then (SR_OK, ⟨b, b, b, 0⟩)
        else (SR_ERR, ⟨b, b, 0, 0⟩) := by
  have hnotge : ¬ b ≥ 1 <<< np := not_le.mpr hb
  by_cases hc1 : c = '1'
  · simp [configure_probes_loop, if_neg hnotge, hc1]
  · by_cases hc0 : c = '0'
    · simp [configure_probes_loop, if_neg hnotge, hc0, hc1]
    · by_cases hcr : c = 'r'
      · simp [configure_probes_loop, if_neg hnotge, hcr, hc1, hc0]
      · by_cases hcf : c = 'f'
        · simp [configure_probes_loop, if_neg hnotge, hcf, hc1, hc0, hcr]
        · simp [configure_probes_loop, if_neg hnotge, hc1, hc0, hcr, hcf]

/-- C3: an enabled probe at bit position `i` with a non-empty trigger
string compiles successfully iff the string is exactly one of the four
symbols 0, 1, r, f; when accepted, the channel bit and the trigger bit
at position `i` are always set, the edge bit only for r and f, and the
value bit only for 1 and r.  In particular the 3-channel scenario
[enabled trigger r, enabled empty trigger, disabled] yields
channelMask 0b011, triggerMask 0b001, triggerEdgeMask 0b001 and
triggerValues 0b001. -/
theorem c3_trigger_encoding (np i : Nat) (s : List Char) (d : dev_context)
    (hi : i < np) (hs : s ≠ []) :
    ((configure_probes np d (single_probe_at i s)).1 = SR_OK
       ↔ (s = ['0'] ∨ s = ['1'] ∨ s = ['r'] ∨ s = ['f']))
    ∧ ((configure_probes np d (single_probe_at i s)).1 = SR_OK →
        (configure_probes np d (single_probe_at i s)).2.channel_mask = 2 ^ i
        ∧ (configure_probes np d (single_probe_at i s)).2.trigger_mask = 2 ^ i
        ∧ (configure_probes np d (single_probe_at i s)).2.trigger_edge_mask
            = (if s = ['r'] ∨ s = ['f'] then 2 ^ i else 0)
        ∧ (configure_probes np d (single_probe_at i s)).2.trigger_values
            = (if s = ['1'] ∨ s = ['r'] then 2 ^ i else 0))
    ∧ configure_probes 3 d
        [some ⟨true, some ['r']⟩, some ⟨true, some []⟩, some ⟨false, none⟩]
        = (SR_OK, { d with channel_mask := 3, trigger_mask := 1,
                           trigger_edge_mask := 1, trigger_values := 1 }) := by
  have hblt : 2 ^ i < 1 <<< np := by
    rw [Nat.one_shiftLeft]
    exact Nat.pow_lt_pow_right one_lt_two hi
  have hnotge : ¬ 2 ^ i ≥ 1 <<< np := not_le.mpr hblt
  have hskip := configure_probes_loop_skip np i 0 ⟨0, 0, 0, 0⟩
    [some ⟨true, some s⟩] (by omega)
  rw [pow_zero, Nat.zero_add] at hskip
  refine ⟨?_, ?_, ?_⟩
  · rw [configure_probes_fst]
    simp only [single_probe_at]
    rw [hskip]
    cases s with
    | nil => exact absurd rfl hs
    | cons c cs =>
      cases cs with
      | cons c2 cs2 =>
        simp only [configure_probes_loop, if_neg hnotge,
                   if_pos (List.cons_ne_nil c2 cs2)]
        constructor
        · intro h
          have h2 : SR_ERR = SR_OK := h
          exact absurd h2 (by decide)
        · rintro (h | h | h | h) <;> simp at h
      | nil =>
        rw [configure_probes_loop_single np (2 ^ i) c hblt]
        by_cases hc1 : c = '1'
        · simp [hc1, SR_OK]
        · by_cases hc0 : c = '0'
          · simp [hc0, hc1, SR_OK]
          · by_cases hcr : c = 'r'
            · simp [hcr, hc1, hc0, SR_OK]
            · by_cases hcf : c = 'f'
              · simp [hcf, hc1, hc0, hcr, SR_OK]
              · simp only [if_neg hc1, if_neg hc0, if_neg hcr, if_neg hcf]
                constructor
                · intro h
                  have h2 : SR_ERR = SR_OK := h
                  exact absurd h2 (by decide)
                · rintro (h | h | h | h) <;>
                    simp only [List.cons.injEq, and_true] at h <;>
                    first
                      | exact absurd h hc0
                      | exact absurd h hc1
                      | exact absurd h hcr
                      | exact absurd h hcf
  · intro hok
    rw [configure_probes_fst] at hok
    rw [configure_probes_snd]
    dsimp only
    simp only [single_probe_at] at hok ⊢
    rw [hskip] at hok ⊢
    cases s with
    | nil => exact absurd rfl hs
    | cons c cs =>
      cases cs with
      | cons c2 cs2 =>
        simp only [configure_probes_loop, if_neg hnotge,
                   if_pos (List.cons_ne_nil c2 cs2)] at hok
        have h2 : SR_ERR = SR_OK := hok
        exact absurd h2 (by decide)
      | nil =>
        rw [configure_probes_loop_single np (2 ^ i) c hblt] at hok ⊢
        by_cases hc1 : c = '1'
        · simp [hc1]
        · by_cases hc0 : c = '0'
          · simp [hc0, hc1]
          · by_cases hcr : c = 'r'
            · simp [hcr, hc1, hc0]
            · by_cases hcf : c = 'f'
              · simp [hcf, hc1, hc0, hcr]
              · simp only [if_neg hc1, if_neg hc0, if_neg hcr,
                           if_neg hcf] at hok
                have h2 : SR_ERR = SR_OK := hok
                exact absurd h2 (by decide)
  · have hloop : configure_probes_loop 3 ⟨0, 0, 0, 0⟩
        [some ⟨true, some ['r']⟩, some ⟨true, some []⟩, some ⟨false, none⟩] 1
        = (SR_OK, ⟨3, 1, 1, 1⟩) := by decide
    simp [configure_probes, hloop]

/-- C3 witness: the rising-edge symbol at bit position 0 on a
1-channel device, and the 3-channel scenario. -/
theorem c3_trigger_encoding_witness :
    ((configure_probes 1 dc0 (single_probe_at 0 ['r'])).1 = SR_OK
       ↔ ((['r'] : List Char) = ['0'] ∨ (['r'] : List Char) = ['1']
            ∨ (['r'] : List Char) = ['r'] ∨ (['r'] : List Char) = ['f']))
    ∧ ((configure_probes 1 dc0 (single_probe_at 0 ['r'])).1 = SR_OK →
        (configure_probes 1 dc0 (single_probe_at 0 ['r'])).2.channel_mask = 2 ^ 0
        ∧ (configure_probes 1 dc0 (single_probe_at 0 ['r'])).2.trigger_mask = 2 ^ 0
        ∧ (configure_probes 1 dc0 (single_probe_at 0 ['r'])).2.trigger_edge_mask
            = (if (['r'] : List Char) = ['r'] ∨ (['r'] : List Char) = ['f']
               then 2 ^ 0 else 0)
        ∧ (configure_probes 1 dc0 (single_probe_at 0 ['r'])).2.trigger_values
            = (if (['r'] : List Char) = ['1'] ∨ (['r'] : List Char) = ['r']
               then 2 ^ 0 else 0))
    ∧ configure_probes 3 dc0
        [some ⟨true, some ['r']⟩, some ⟨true, some []⟩, some ⟨false, none⟩]
        = (SR_OK, { dc0 with channel_mask := 3, trigger_mask := 1,
                             trigger_edge_mask := 1, trigger_values := 1 }) :=
  c3_trigger_encoding 1 0 ['r'] dc0 (by decide) (by decide)

/-- C1 counterexample: on a 1-channel device whose context has prior
channelMask 5, compiling a 2-entry probe list fails with the
too-many-channels error, but afterwards channelMask is 1 — the partial
mask from the already-processed first channel — and not the prior 5:
the failed call does not leave the masks unchanged. -/
theorem c1_counterexample :
    (configure_probes 1 { dc0 with channel_mask := 5 }
        [some ⟨true, none⟩, some ⟨false, none⟩]).1 = SR_ERR
    ∧ (configure_probes 1 { dc0 with channel_mask := 5 }
        [some ⟨true, none⟩, some ⟨false, none⟩]).2.channel_mask = 1
    ∧ { dc0 with channel_mask := 5 }.channel_mask = 5 := by decide

/-- C1 amended: on a probe list longer than the maximum channel count,
`configure_probes` fails with SR_ERR, but the masks are not restored:
they are reset to zero on entry and afterwards hold exactly the
partial compilation of the prefix of maximum-channel-count entries,
independent of their values before the call. -/
theorem c1_too_many_overwrites (np : Nat) (d : dev_context)
    (probes : List (Option sr_probe)) (hlen : np < probes.length) :
    (configure_probes np d probes).1 = SR_ERR
    ∧ (configure_probes np d probes).2
        = (configure_probes np d (probes.take np)).2 := by
  have h := configure_probes_loop_trunc np probes 0 ⟨0, 0, 0, 0⟩
    (by omega) (by omega)
  rw [pow_zero, Nat.sub_zero] at h
  refine ⟨?_, ?_⟩
  · rw [configure_probes_fst]
    exact h.1
  · rw [configure_probes_snd, configure_probes_snd, h.2]

/-- C1 amended witness: the concrete overflow of the counterexample,
with the final context equal to the compilation of the fitting
prefix. -/
theorem c1_too_many_overwrites_witness :
    (configure_probes 1 { dc0 with channel_mask := 5 }
        [some ⟨true, none⟩, some ⟨false, none⟩]).1 = SR_ERR
    ∧ (configure_probes 1 { dc0 with channel_mask := 5 }
        [some ⟨true, none⟩, some ⟨false, none⟩]).2
        = (configure_probes 1 { dc0 with channel_mask := 5 }
            ([some ⟨true, none⟩, some ⟨false, none⟩].take 1)).2 :=
  c1_too_many_overwrites 1 { dc0 with channel_mask := 5 }
    [some ⟨true, none⟩, some ⟨false, none⟩] (by decide)

/-- C10: the channel-limit check is evaluated from the list position
alone, before the enabled flag of the entry is examined: a probe list
with more entries than the maximum channel count fails compilation
with SR_ERR even when every entry past the limit is absent or disabled
with no trigger. -/
theorem c10_excess_disabled (np : Nat) (d : dev_context)
    (probes : List (Option sr_probe))
    (hlen : np < probes.length)
    (_hdis : ∀ p ∈ probes.drop np, disabled_no_trigger p = true) :
    (configure_probes np d probes).1 = SR_ERR := by
  have h := configure_probes_loop_trunc np probes 0 ⟨0, 0, 0, 0⟩
    (by omega) (by omega)
  rw [pow_zero] at h
  rw [configure_probes_fst]
  exact h.1

/-- C10 witness: one excess, disabled, trigger-less entry on a
1-channel device still aborts compilation. -/
theorem c10_excess_disabled_witness :
    (configure_probes 1 dc0 [some ⟨true, none⟩, some ⟨false, none⟩]).1
      = SR_ERR :=
  c10_excess_disabled 1 dc0 [some ⟨true, none⟩, some ⟨false, none⟩]
    (by decide) (by decide)

/-- C2: setting the sample rate via `config_set` succeeds and stores the
requested rate in the device context iff the rate lies between the
minimum and the maximum of the fixed samplerate list (range check
against the extremes, not exact membership); on failure the result is
SR_ERR_SAMPLERATE and the stored sample rate (indeed the whole
context) is unchanged. -/
theorem c2_samplerate_range (d : dev_context) (status : sr_st)
    (clock_ret : Int) (rate : Nat) :
    (((config_set (conf_req.samplerate rate) status (some d) clock_ret).1 = SR_OK
        ∧ (config_set (conf_req.samplerate rate) status (some d) clock_ret).2
            = some { d with samplerate := rate })
      ↔ validateSampleRate_spec rate)
    ∧ (¬ validateSampleRate_spec rate →
        config_set (conf_req.samplerate rate) status (some d) clock_ret
          = (SR_ERR_SAMPLERATE, some d)) := by
  have hhead : samplerates.headD 0 = 125000000 := by decide
  have hlast : samplerates.getLastD 0 = 100 := by decide
  have hspec : validateSampleRate_spec rate ↔ 100 ≤ rate ∧ rate ≤ 125000000 := by
    unfold validateSampleRate_spec
    rw [show samplerates.min?.getD 0 = 100 from by decide,
        show samplerates.max?.getD 0 = 125000000 from by decide]
  by_cases hv : rate > 125000000 ∨ rate < 100
  · have hcs : config_set (conf_req.samplerate rate) status (some d) clock_ret
        = (SR_ERR_SAMPLERATE, some d) := by
      simp only [config_set, hhead, hlast]
      rw [if_pos hv]
    rw [hcs, hspec]
    refine ⟨⟨fun h => ?_, fun hb => absurd hv (by omega)⟩, fun _ => rfl⟩
    have h1 : SR_ERR_SAMPLERATE = SR_OK := h.1
    exact absurd h1 (by decide)
  · have hcs : config_set (conf_req.samplerate rate) status (some d) clock_ret
        = (SR_OK, some { d with samplerate := rate }) := by
      simp only [config_set, hhead, hlast]
      rw [if_neg hv]
    rw [hcs, hspec]
    refine ⟨⟨fun _ => by omega, fun _ => ⟨rfl, rfl⟩⟩,
            fun hns => absurd (by omega : 100 ≤ rate ∧ rate ≤ 125000000) hns⟩

/-- C2 witness: rate 300 Hz (strictly between two listed entries) is
accepted and stored; the bounds hold at 300. -/
theorem c2_samplerate_range_witness :
    ((config_set (conf_req.samplerate 300) sr_st.ACTIVE (some dc0) SR_OK).1 = SR_OK
      ∧ (config_set (conf_req.samplerate 300) sr_st.ACTIVE (some dc0) SR_OK).2
          = some { dc0 with samplerate := 300 }) :=
  (c2_samplerate_range dc0 sr_st.ACTIVE SR_OK 300).1.mpr (by decide)

/-- C5: starting an acquisition on an ACTIVE device whose context
already holds an acquisition session fails with SR_ERR (a state
error), calls the session allocator not at all, and leaves the whole
context — in particular the attached session — unchanged. -/
theorem c5_double_start (np : Nat) (d : dev_context)
    (probes : List (Option sr_probe)) (alloc : Option Nat)
    (setup_ret start_ret : Int) (s : Nat)
    (hacq : d.acquisition = some s) :
    dev_acquisition_start np sr_st.ACTIVE d probes alloc setup_ret start_ret
      = ⟨SR_ERR, sr_st.ACTIVE, d, false, false, false, false⟩ := by
  simp [dev_acquisition_start, hacq]

/-- C5 witness: a concrete double start. -/
theorem c5_double_start_witness :
    dev_acquisition_start 3 sr_st.ACTIVE { dc0 with acquisition := some 7 }
        [] none SR_OK SR_OK
      = ⟨SR_ERR, sr_st.ACTIVE, { dc0 with acquisition := some 7 },
         false, false, false, false⟩ :=
  c5_double_start 3 { dc0 with acquisition := some 7 } [] none SR_OK SR_OK 7 rfl

/-- C6: starting an acquisition on a device whose status is not ACTIVE
fails with SR_ERR_DEV_CLOSED, never calls the session allocator, and
changes neither the device context nor the status. -/
theorem c6_start_not_active (np : Nat) (status : sr_st) (d : dev_context)
    (probes : List (Option sr_probe)) (alloc : Option Nat)
    (setup_ret start_ret : Int)
    (h : status ≠ sr_st.ACTIVE) :
    dev_acquisition_start np status d probes alloc setup_ret start_ret
      = ⟨SR_ERR_DEV_CLOSED, status, d, false, false, false, false⟩ := by
  simp [dev_acquisition_start, h]

/-- C6 witness: start on an INACTIVE device. -/
theorem c6_start_not_active_witness :
    dev_acquisition_start 3 sr_st.INACTIVE dc0 [] (some 1) SR_OK SR_OK
      = ⟨SR_ERR_DEV_CLOSED, sr_st.INACTIVE, dc0, false, false, false, false⟩ :=
  c6_start_not_active 3 sr_st.INACTIVE dc0 [] (some 1) SR_OK SR_OK (by decide)

/-- C7: on an ACTIVE device with no session attached, when probe
configuration succeeds but the delegated setup step or the delegated
start-capture step fails, acquisition start returns the delegated
failure code, the just-allocated session is detached again
(acquisition = none) and freed, and the device status remains
ACTIVE. -/
theorem c7_start_cleanup (np : Nat) (d : dev_context)
    (probes : List (Option sr_probe)) (a : Nat) (setup_ret start_ret : Int)
    (hacq : d.acquisition = none)
    (hconf : (configure_probes np
        { d with stopping_in_progress := false, transfer_error := false }
        probes).1 = SR_OK)
    (hfail : setup_ret ≠ SR_OK ∨ (setup_ret = SR_OK ∧ start_ret ≠ SR_OK)) :
    dev_acquisition_start np sr_st.ACTIVE d probes (some a) setup_ret start_ret
      = ⟨if setup_ret ≠ SR_OK then setup_ret else start_ret, sr_st.ACTIVE,
         { (configure_probes np
              { d with stopping_in_progress := false, transfer_error := false }
              probes).2 with acquisition := none },
         true, true, false, false⟩
    ∧ (dev_acquisition_start np sr_st.ACTIVE d probes (some a)
         setup_ret start_ret).ret ≠ SR_OK := by
  obtain ⟨sr, ls, cs, cm, tm, tem, tv, acq, sip, te⟩ := d
  dsimp only at hacq
  subst hacq
  rcases hfail with hs | ⟨hs, hr⟩
  · exact ⟨by simp [dev_acquisition_start, hconf, hs],
           by simp [dev_acquisition_start, hconf, hs]⟩
  · exact ⟨by simp [dev_acquisition_start, hconf, hs, hr],
           by simp [dev_acquisition_start, hconf, hs, hr]⟩

/-- C7 witness: setup failure on a concrete device. -/
theorem c7_start_cleanup_witness :
    dev_acquisition_start 1 sr_st.ACTIVE dc0 [] (some 5) SR_ERR SR_OK
      = ⟨if SR_ERR ≠ SR_OK then SR_ERR else SR_OK, sr_st.ACTIVE,
         { (configure_probes 1
              { dc0 with stopping_in_progress := false, transfer_error := false }
              []).2 with acquisition := none },
         true, true, false, false⟩
    ∧ (dev_acquisition_start 1 sr_st.ACTIVE dc0 [] (some 5)
         SR_ERR SR_OK).ret ≠ SR_OK :=
  c7_start_cleanup 1 dc0 [] 5 SR_ERR SR_OK rfl (by decide)
    (Or.inl (by decide))

/-- C8: acquisition stop on an ACTIVE device returns SR_OK and merely
sets the status to STOPPING — every other field, in particular the
whole device context with its session, masks and flags, is unchanged;
on a device whose status is not ACTIVE it returns SR_ERR_DEV_CLOSED
and changes nothing at all. -/
theorem c8_stop_frame (sdi : sr_dev_inst) :
    (sdi.status = sr_st.ACTIVE →
       dev_acquisition_stop sdi = (SR_OK, { sdi with status := sr_st.STOPPING }))
    ∧ (sdi.status ≠ sr_st.ACTIVE →
       dev_acquisition_stop sdi = (SR_ERR_DEV_CLOSED, sdi))
    ∧ (dev_acquisition_stop sdi).2.devc = sdi.devc
    ∧ (dev_acquisition_stop sdi).2.devhdl = sdi.devhdl := by
  refine ⟨?_, ?_, ?_, ?_⟩
  · intro h
    simp [dev_acquisition_stop, h]
  · intro h
    simp [dev_acquisition_stop, h]
  · unfold dev_acquisition_stop
    split <;> rfl
  · unfold dev_acquisition_stop
    split <;> rfl

/-- C8 witness: stop on a concrete ACTIVE device. -/
theorem c8_stop_frame_witness :
    dev_acquisition_stop ⟨sr_st.ACTIVE, dc0, some 1⟩
      = (SR_OK, { (⟨sr_st.ACTIVE, dc0, some 1⟩ : sr_dev_inst) with
                  status := sr_st.STOPPING }) :=
  (c8_stop_frame ⟨sr_st.ACTIVE, dc0, some 1⟩).1 rfl

/-- C9: with the driver initialized, closing a device twice in a row is
idempotent: under the reachable-state invariant that a device with no
open USB handle is INACTIVE (scan creates devices INACTIVE with a NULL
handle, and `dev_close` is the only place the handle is reset, setting
INACTIVE at the same time), the first close returns SR_OK and leaves
the status INACTIVE, and the second close — finding no open handle —
is a no-op that also returns SR_OK, so the status is INACTIVE after
each call. -/
theorem c9_close_idempotent (sdi : sr_dev_inst) (r1 r2 : Int)
    (hinv : sdi.devhdl ≠ none ∨ sdi.status = sr_st.INACTIVE) :
    (dev_close true sdi r1).1 = SR_OK
    ∧ (dev_close true sdi r1).2.status = sr_st.INACTIVE
    ∧ (dev_close true (dev_close true sdi r1).2 r2).1 = SR_OK
    ∧ (dev_close true (dev_close true sdi r1).2 r2).2
        = (dev_close true sdi r1).2 := by
  match h : sdi.devhdl with
  | none =>
    rcases hinv with hh | hs
    · exact absurd h hh
    · simp [dev_close, h, hs]
  | some u =>
    simp [dev_close, h]

/-- C9 witness: double close of a concrete open ACTIVE device. -/
theorem c9_close_idempotent_witness :
    (dev_close true ⟨sr_st.ACTIVE, dc0, some 1⟩ SR_OK).1 = SR_OK
    ∧ (dev_close true ⟨sr_st.ACTIVE, dc0, some 1⟩ SR_OK).2.status
        = sr_st.INACTIVE
    ∧ (dev_close true (dev_close true ⟨sr_st.ACTIVE, dc0, some 1⟩ SR_OK).2
         SR_OK).1 = SR_OK
    ∧ (dev_close true (dev_close true ⟨sr_st.ACTIVE, dc0, some 1⟩ SR_OK).2
         SR_OK).2 = (dev_close true ⟨sr_st.ACTIVE, dc0, some 1⟩ SR_OK).2 :=
  c9_close_idempotent ⟨sr_st.ACTIVE, dc0, some 1⟩ SR_OK SR_OK
    (Or.inl (by decide))

end SysclkLwla
